import Mathlib

/-!
# Verification of the wifimitm WEP attack engine

Shallow embedding of the process-supervision and output-classification
engine of `wep.py` and `wifimitm/common.py`: the per-kind output-line
classifiers (`update_state`), the resource lifecycle (`clean`), and the
`WepAttacker` orchestration loop, together with theorems settling the
specification claims about them.

Output read from a subprocess since the last poll is passed to each
`update_state` model explicitly (the `lines` and `stderr` arguments);
the result of `Popen.poll()` is passed as the boolean `exited`.  Lines
are modelled without their trailing newline, which is how the anchored
regular expressions of the source treat them.  Python values that are
dynamically either `int` or `str` are modelled by `PyVal`; dictionary
entries that may be absent and object attributes that may be `None` are
modelled by `Option`; Python exceptions are modelled by an `Option PyErr`
component of each result, carrying the mutations applied before the
exception was raised.
-/

namespace Wifimitm

/-- Python exceptions the modelled code can raise. -/
inductive PyErr
  | assertionError
  | attributeError
  | keyError
  | fileNotFoundError
  | calledProcessError
deriving DecidableEq, Repr

/-- A Python value that is dynamically either an `int` or a `str`. -/
inductive PyVal
  | int (n : Int)
  | str (s : String)
deriving DecidableEq, Repr

/-- Whether a dynamic Python value is an `int`. -/
def PyVal.isInt : PyVal → Bool
  | .int _ => true
  | .str _ => false

/-- Whether a dynamic Python value is a `str`. -/
def PyVal.isStr : PyVal → Bool
  | .int _ => false
  | .str _ => true

/-- `containsSub pat s` decides whether `pat` occurs as a contiguous
substring of `s`: the character-level model of Python's `pat in s`. -/
def containsSub (pat : List Char) : List Char → Bool
  | [] => pat.isEmpty
  | c :: t => pat.isPrefixOf (c :: t) || containsSub pat t

/-- Python's `pat in line` substring test on strings. -/
def hasSub (line pat : String) : Bool :=
  containsSub pat.data line.data

/-- ASCII decimal digit: the `\d` character class of the source regexes. -/
def isDig (c : Char) : Bool :=
  48 ≤ c.toNat && c.toNat ≤ 57

/-- The `[1-9]` character class of the source regexes. -/
def isPosDig (c : Char) : Bool :=
  49 ≤ c.toNat && c.toNat ≤ 57

/-- Numeric value denoted by a decimal digit string. -/
def digitsToNat (ds : List Char) : Nat :=
  ds.foldl (fun n c => 10 * n + (c.toNat - 48)) 0

/-- Longest digit prefix of a character list, and the remainder. -/
def spanDigits : List Char → List Char × List Char
  | [] => ([], [])
  | c :: t =>
    if isDig c then (c :: (spanDigits t).1, (spanDigits t).2)
    else ([], c :: t)

/-- Consume an expected literal from the front of the input. -/
def expectLit : List Char → List Char → Option (List Char)
  | [], s => some s
  | _ :: _, [] => none
  | l :: ls, c :: cs => if c = l then expectLit ls cs else none

/-- Consume `\d+`: a nonempty maximal digit run (the following literal in
each source pattern starts with a non-digit, so the greedy regex group is
exactly the maximal run). -/
def numTok (s : List Char) : Option (List Char × List Char) :=
  match spanDigits s with
  | (d, r) => if d.isEmpty then none else some (d, r)

/-- Consume `\d*[1-9]\d*`: a maximal digit run containing a nonzero digit. -/
def posTok (s : List Char) : Option (List Char × List Char) :=
  match spanDigits s with
  | (d, r) => if d.isEmpty || !(d.any isPosDig) then none else some (d, r)

/-- Consume `...`: exactly three arbitrary non-newline characters. -/
def any3Tok : List Char → Option (List Char)
  | a :: b :: c :: r => if a = '\n' || b = '\n' || c = '\n' then none else some r
  | _ => none

/-- Modelled from the spec: the `WirelessAccessPoint` entity of the absent
`wifimitm/model.py` — "optional paths to a previously saved keystream file,
a previously saved ARP-request capture, and a recovered key file; carries a
derived cracked predicate" (spec section 3). -/
structure AccessPoint where
  prga_xor_path : Option String
  arp_cap_path : Option String
  psk_path : Option String
deriving DecidableEq, Repr

namespace AccessPoint

/-- Modelled from the spec: the derived "cracked" predicate of the access
point, true once a recovered key file has been persisted onto it. -/
def is_cracked (ap : AccessPoint) : Bool :=
  ap.psk_path.isSome

/-- Modelled from the spec: `save_prga_xor` persists a keystream file path
onto the access point. -/
def save_prga_xor (ap : AccessPoint) (p : String) : AccessPoint :=
  { ap with prga_xor_path := some p }

/-- Modelled from the spec: `save_arp_cap` persists a capture file path as
the access point's reusable ARP capture. -/
def save_arp_cap (ap : AccessPoint) (p : String) : AccessPoint :=
  { ap with arp_cap_path := some p }

/-- Modelled from the spec: `save_psk_file` persists the generated key file
as the access point's recovered key, after which the cracked predicate
holds. -/
def save_psk_file (ap : AccessPoint) (p : String) : AccessPoint :=
  { ap with psk_path := some p }

end AccessPoint

/-- The supervised process kinds of the orchestrator. -/
inductive ProcKind
  | capturer
  | fakeauth
  | arpreplay
  | cracker
deriving DecidableEq, Repr

/-- Observable external actions emitted by the modelled code: process
spawns and shutdowns, sleeps, fire-and-forget deauthentication, the
persisting side effects, and invocations of the handshake-extraction
tool (`wpaclean`). -/
inductive Act
  | spawn (k : ProcKind)
  | stopProc (k : ProcKind)
  | cleanProc (k : ProcKind)
  | sleep (n : Nat)
  | deauth (station : String)
  | savePrgaXor
  | saveArpCap (p : String)
  | savePskFile
  | runCleanTool
  | logWarn (line : String)
deriving DecidableEq, Repr

namespace FakeAuthentication

/-- `FakeAuthentication.State` (wep.py lines 59-67). -/
inductive State
  | ok
  | new
  | waiting_for_beacon_frame
  | terminated
deriving DecidableEq, Repr

/-- In-memory state of a `FakeAuthentication` instance: its lifecycle
state, the two flag dictionary entries (`none` models an absent key),
whether a `Popen` object is held, and whether each of the four temp-file
attributes holds a file object (`true`) or `None` (`false`). -/
structure Inst where
  state : Option State
  deauthenticated : Option Bool
  needs_prga_xor : Option Bool
  process : Bool
  stdout_r : Bool
  stdout_w : Bool
  stderr_r : Bool
  stderr_w : Bool
deriving DecidableEq, Repr

/-- A freshly constructed instance (`__init__`, wep.py lines 69-83): no
state, empty flag dictionary, no process, all four handles `None`. -/
def init : Inst :=
  { state := none, deauthenticated := none, needs_prga_xor := none,
    process := false, stdout_r := false, stdout_w := false,
    stderr_r := false, stderr_w := false }

/-- `start` (wep.py lines 95-129): set the state to `new`, initialise both
flags to `False` (`__init_flags`), open the four temp-file handles and
spawn `aireplay-ng --fakeauth`. -/
def start (inst : Inst) : Inst × List Act :=
  ({ inst with
      state := some State.new,
      deauthenticated := some false,
      needs_prga_xor := some false,
      process := true,
      stdout_r := true,
      stdout_w := true,
      stderr_r := true,
      stderr_w := true }, [.spawn .fakeauth])

/-- One stdout line of the classifier inside `update_state`
(wep.py lines 137-148). -/
def classifyLine (ap : AccessPoint) (inst : Inst) (line : String) : Inst :=
  if hasSub line "Waiting for beacon frame" then
    { inst with state := some .waiting_for_beacon_frame }
  else if hasSub line "Association successful" then
    { inst with state := some .ok }
  else if hasSub line "Got a deauthentication packet!" then
    { inst with deauthenticated := some true }
  else if hasSub line "Switching to shared key authentication"
      && !ap.prga_xor_path.isSome then
    { inst with needs_prga_xor := some true }
  else inst

/-- The stdout loop of `update_state` (wep.py lines 137-148), in file
order. -/
def classifyLines (ap : AccessPoint) (inst : Inst) : List String → Inst
  | [] => inst
  | l :: ls => classifyLines ap (classifyLine ap inst l) ls

/-- `update_state` (wep.py lines 131-156): classify every new stdout line,
assert that stderr stayed empty, then poll the process and force the state
to `terminated` if it has exited.  A failing assertion aborts the call with
the mutations already applied. -/
def update_state (ap : AccessPoint) (inst : Inst) (lines : List String)
    (stderr : String) (exited : Bool) : Inst × Option PyErr :=
  let i := classifyLines ap inst lines
  if stderr ≠ "" then (i, some .assertionError)
  else if exited then ({ i with state := some .terminated }, none)
  else (i, none)

/-- `stop` (wep.py lines 158-176), as observable on an instance: when a
process is held, the process reference is dropped and the state becomes
`terminated`; otherwise nothing happens. -/
def stop (inst : Inst) : Inst :=
  if inst.process then { inst with process := false, state := some .terminated }
  else inst

/-- `clean` (wep.py lines 178-203): stop a running process, close the four
handles in order — calling `close()` on an attribute that is `None` raises
`AttributeError`, aborting with the mutations applied so far — then reset
the state to `None` and clear the flag dictionary. -/
def clean (inst : Inst) : Inst × Option PyErr :=
  let i := stop inst
  if !i.stdout_r then (i, some .attributeError)
  else
    let i := { i with stdout_r := false }
    if !i.stdout_w then (i, some .attributeError)
    else
      let i := { i with stdout_w := false }
      if !i.stderr_r then (i, some .attributeError)
      else
        let i := { i with stderr_r := false }
        if !i.stderr_w then (i, some .attributeError)
        else
          ({ i with
              stderr_w := false,
              state := none,
              deauthenticated := none,
              needs_prga_xor := none }, none)

end FakeAuthentication

namespace ArpReplay

/-- `ArpReplay.State` (wep.py lines 217-227). -/
inductive State
  | ok
  | new
  | waiting_for_beacon_frame
  | waiting_for_arp_request
  | terminated
deriving DecidableEq, Repr

/-- The five named groups captured by `cre_ok`, as digit runs. -/
structure OkGroups where
  read : List Char
  ARPs : List Char
  ACKs : List Char
  sent : List Char
  pps : List Char
deriving DecidableEq, Repr

/-- `cre_ok.match` (wep.py lines 248-251): a deterministic parser for the
anchored pattern `Read (\d+) packets \(got (\d*[1-9]\d*) ARP requests and
(\d*[1-9]\d*) ACKs\), sent (\d*[1-9]\d*) packets...\((\d+) pps\)` — each
digit group is followed by a literal starting with a space, so every group
is forced to the maximal digit run, the three unescaped dots match exactly
three arbitrary non-newline characters, and the `$` anchor requires the
end of the (newline-stripped) line. -/
def creOkMatch (line : String) : Option OkGroups := do
  let s ← expectLit "Read ".data line.data
  let (readG, s) ← numTok s
  let s ← expectLit " packets (got ".data s
  let (arps, s) ← posTok s
  let s ← expectLit " ARP requests and ".data s
  let (acks, s) ← posTok s
  let s ← expectLit " ACKs), sent ".data s
  let (sentG, s) ← posTok s
  let s ← expectLit " packets".data s
  let s ← any3Tok s
  let s ← expectLit "(".data s
  let (ppsG, s) ← numTok s
  let s ← expectLit " pps)".data s
  if s.isEmpty then pure ⟨readG, arps, acks, sentG, ppsG⟩ else none

/-- `cre_cap_filename.match` (wep.py lines 252-254): the anchored pattern
`Saving ARP requests in (replay_arp.+\.cap)` — the greedy group is the
whole remainder of the line, which must start with `replay_arp`, end with
`.cap`, contain at least one further character between them and no
newline. -/
def creCapFilenameMatch (line : String) : Option String :=
  match expectLit "Saving ARP requests in ".data line.data with
  | none => none
  | some rest =>
    if "replay_arp".data.isPrefixOf rest && ".cap".data.isSuffixOf rest
        && 15 ≤ rest.length && rest.all (fun c => c ≠ '\n') then
      some (String.mk rest)
    else none

/-- The five-entry stats dictionary.  `__init_stats` (wep.py lines 271-282)
fills it with the integer `0`; a matching progress line overwrites each
entry with the matched digit substring, which `m.group` returns as a
Python `str`. -/
structure Stats where
  read : PyVal
  ACKs : PyVal
  ARPs : PyVal
  sent : PyVal
  pps : PyVal
deriving DecidableEq, Repr

/-- `__init_stats` (wep.py lines 271-282). -/
def initStats : Stats :=
  { read := .int 0, ACKs := .int 0, ARPs := .int 0, sent := .int 0,
    pps := .int 0 }

/-- In-memory state of an `ArpReplay` instance. -/
structure Inst where
  state : Option State
  deauthenticated : Option Bool
  stats : Stats
  tmp_dir_name : String
  cap_path : Option String
deriving DecidableEq, Repr

/-- `start` (wep.py lines 284-318): set the state to `new`, initialise the
flags and stats, create a private temporary directory, and spawn
`aireplay-ng --arpreplay` inside it. -/
def start (tmp : String) : Inst × List Act :=
  ({ state := some State.new,
     deauthenticated := some false,
     stats := initStats,
     tmp_dir_name := tmp,
     cap_path := none }, [.spawn .arpreplay])

/-- One stdout line of `update_state` (wep.py lines 326-353): the branch
cascade, then — for unrecognised lines — the `cre_ok` stat update with its
save-ARP-capture side effect, and the `cre_cap_filename` capture-path
announcement. -/
def classifyLine (ap : AccessPoint) (inst : Inst) (line : String) :
    AccessPoint × Inst × List Act :=
  if hasSub line "Waiting for beacon frame" then
    (ap, { inst with state := some State.waiting_for_beacon_frame }, [])
  else if hasSub line "got 0 ARP requests" then
    (ap, { inst with state := some State.waiting_for_arp_request }, [])
  else if hasSub line "Notice: got a deauth/disassoc packet. Is the source MAC associated ?" then
    (ap, { inst with deauthenticated := some true }, [])
  else
    let r :=
      match creOkMatch line with
      | some g =>
        let inst := { inst with
          state := some State.ok,
          stats := { read := .str (String.mk g.read),
                     ACKs := .str (String.mk g.ACKs),
                     ARPs := .str (String.mk g.ARPs),
                     sent := .str (String.mk g.sent),
                     pps := .str (String.mk g.pps) } }
        match ap.arp_cap_path, inst.cap_path with
        | none, some p => (ap.save_arp_cap p, inst, [Act.saveArpCap p])
        | _, _ => (ap, inst, [])
      | none => (ap, inst, [])
    match r with
    | (ap, inst, acts) =>
      match creCapFilenameMatch line with
      | some f =>
        (ap, { inst with cap_path := some (inst.tmp_dir_name ++ "/" ++ f) }, acts)
      | none => (ap, inst, acts)

/-- The stdout loop of `update_state` (wep.py lines 326-353), in file
order. -/
def classifyLines : AccessPoint → Inst → List String → AccessPoint × Inst × List Act
  | ap, inst, [] => (ap, inst, [])
  | ap, inst, l :: ls =>
    match classifyLine ap inst l with
    | (ap1, i1, a1) =>
      match classifyLines ap1 i1 ls with
      | (ap2, i2, a2) => (ap2, i2, a1 ++ a2)

/-- `update_state` (wep.py lines 320-361): classify every new stdout line,
assert that stderr stayed empty, then poll the process and force the state
to `terminated` if it has exited. -/
def update_state (ap : AccessPoint) (inst : Inst) (lines : List String)
    (stderr : String) (exited : Bool) :
    AccessPoint × Inst × List Act × Option PyErr :=
  match classifyLines ap inst lines with
  | (ap1, i, acts) =>
    if stderr ≠ "" then (ap1, i, acts, some .assertionError)
    else if exited then
      (ap1, { i with state := some State.terminated }, acts, none)
    else (ap1, i, acts, none)

end ArpReplay

namespace WepCracker

/-- `WepCracker.State` (wep.py lines 432-439). -/
inductive State
  | ok
  | new
  | terminated
deriving DecidableEq, Repr

/-- In-memory state of a `WepCracker` instance. -/
structure Inst where
  state : Option State
  process : Bool
  tmp_dir : Bool
  stdout_r : Bool
  stdout_w : Bool
  stderr_r : Bool
  stderr_w : Bool
deriving DecidableEq, Repr

/-- A freshly constructed instance (`__init__`, wep.py lines 441-454). -/
def init : Inst :=
  { state := none, process := false, tmp_dir := false, stdout_r := false,
    stdout_w := false, stderr_r := false, stderr_w := false }

/-- `start` (wep.py lines 456-480): create the temporary directory, open
the four handles, spawn `aircrack-ng` and set the state to `ok`. -/
def start (inst : Inst) : Inst × List Act :=
  ({ inst with
      state := some State.ok,
      process := true,
      tmp_dir := true,
      stdout_r := true,
      stdout_w := true,
      stderr_r := true,
      stderr_w := true }, [.spawn .cracker])

/-- The stdout loop of `update_state` (wep.py lines 494-504), processing
lines in file order against the running state `s`; a `KEY FOUND!` line
persists the generated key file onto the access point, and a `Decrypted
correctly:` line without `100%` fails an assertion, aborting the loop. -/
def foldLines : AccessPoint → Option State → List String →
    AccessPoint × Option State × List Act × Option PyErr
  | ap, s, [] => (ap, s, [], none)
  | ap, s, l :: ls =>
    if hasSub l "Failed. Next try with" then
      foldLines ap (if s ≠ some State.terminated then some State.ok else s) ls
    else if hasSub l "KEY FOUND!" then
      let s1 := if s ≠ some State.terminated then some State.ok else s
      match foldLines (ap.save_psk_file "psk.hex") s1 ls with
      | (ap2, s2, acts, e) => (ap2, s2, Act.savePskFile :: acts, e)
    else if hasSub l "Decrypted correctly:" then
      if hasSub l "100%" then foldLines ap s ls
      else (ap, s, [], some .assertionError)
    else foldLines ap s ls

/-- `update_state` (wep.py lines 482-508): poll the process first, forcing
the state to `terminated` if it has exited, then classify the new stdout
lines, then assert that stderr stayed empty. -/
def update_state (ap : AccessPoint) (inst : Inst) (lines : List String)
    (stderr : String) (exited : Bool) :
    AccessPoint × Inst × List Act × Option PyErr :=
  let s0 := if exited then some State.terminated else inst.state
  match foldLines ap s0 lines with
  | (ap1, s1, acts, some e) => (ap1, { inst with state := s1 }, acts, some e)
  | (ap1, s1, acts, none) =>
    if stderr ≠ "" then (ap1, { inst with state := s1 }, acts, some .assertionError)
    else (ap1, { inst with state := s1 }, acts, none)

/-- The order of operations the specification describes for `update()`:
classify all currently available stdout lines first, check stderr, and
only then apply the exit-code poll. -/
def update_state_specOrder (ap : AccessPoint) (inst : Inst) (lines : List String)
    (stderr : String) (exited : Bool) :
    AccessPoint × Inst × List Act × Option PyErr :=
  match foldLines ap inst.state lines with
  | (ap1, s1, acts, some e) => (ap1, { inst with state := s1 }, acts, some e)
  | (ap1, s1, acts, none) =>
    if stderr ≠ "" then (ap1, { inst with state := s1 }, acts, some .assertionError)
    else
      (ap1, { inst with state := if exited then some State.terminated else s1 },
       acts, none)

/-- `stop` (wep.py lines 510-528), as observable on an instance. -/
def stop (inst : Inst) : Inst :=
  if inst.process then { inst with process := false, state := some State.terminated }
  else inst

/-- `clean` (wep.py lines 530-558): stop a running process, close the four
handles, remove the temporary directory — calling a method on an attribute
that is `None` raises `AttributeError`, aborting with the mutations applied
so far — then reset the state to `None`. -/
def clean (inst : Inst) : Inst × Option PyErr :=
  let i := stop inst
  if !i.stdout_r then (i, some .attributeError)
  else
    let i := { i with stdout_r := false }
    if !i.stdout_w then (i, some .attributeError)
    else
      let i := { i with stdout_w := false }
      if !i.stderr_r then (i, some .attributeError)
      else
        let i := { i with stderr_r := false }
        if !i.stderr_w then (i, some .attributeError)
        else
          let i := { i with stderr_w := false }
          if !i.tmp_dir then (i, some .attributeError)
          else ({ i with tmp_dir := false, state := none }, none)

end WepCracker

namespace WirelessCapturer

/-- `WirelessCapturer.State` (common.py lines 165-172). -/
inductive State
  | ok
  | new
  | terminated
deriving DecidableEq, Repr

/-- In-memory state of a `WirelessCapturer` instance: the lifecycle state,
the `detected_wpa_handshake` flag dictionary entry (`none` models an
absent key), the recorded handshake-capture path, and whether the stdout
read handle is a file object. -/
structure Inst where
  state : Option State
  detected_wpa_handshake : Option Bool
  wpa_handshake_cap_path : Option String
  stdout_r : Bool
deriving DecidableEq, Repr

/-- `start` (common.py lines 204-236): set the state to `new`, initialise
the flag to `False` and spawn `airodump-ng`. -/
def start : Inst × List Act :=
  ({ state := some State.new, detected_wpa_handshake := some false,
     wpa_handshake_cap_path := none, stdout_r := true }, [.spawn .capturer])

/-- `__extract_wpa_handshake` (common.py lines 338-349): raise
`FileNotFoundError` when the main capture file is missing, run the
external clean-capture tool, raise `CalledProcessError` on a non-zero
return code, otherwise record the extracted handshake path.  `capExists`
models the `os.path.isfile` check and `toolRC` the tool's return code. -/
def extractWpaHandshake (inst : Inst) (capExists : Bool) (toolRC : Nat) :
    Inst × List Act × Option PyErr :=
  if !capExists then (inst, [], some .fileNotFoundError)
  else if toolRC ≠ 0 then (inst, [.runCleanTool], some .calledProcessError)
  else ({ inst with wpa_handshake_cap_path := some "WPA_handshake.cap" },
        [.runCleanTool], none)

/-- The stderr loop of `update_state` (common.py lines 250-255): on a line
containing `WPA handshake:`, and only when the flag is still `False`, set
the flag and trigger the extraction; a raised exception aborts the loop. -/
def foldStderr (capExists : Bool) (toolRC : Nat) :
    Inst → List String → Inst × List Act × Option PyErr
  | inst, [] => (inst, [], none)
  | inst, l :: ls =>
    if hasSub l "WPA handshake:" then
      match inst.detected_wpa_handshake with
      | none => (inst, [], some .keyError)
      | some true => foldStderr capExists toolRC inst ls
      | some false =>
        let i1 := { inst with detected_wpa_handshake := some true }
        match extractWpaHandshake i1 capExists toolRC with
        | (i2, acts, some e) => (i2, acts, some e)
        | (i2, acts, none) =>
          match foldStderr capExists toolRC i2 ls with
          | (i3, acts2, e2) => (i3, acts ++ acts2, e2)
    else foldStderr capExists toolRC inst ls

/-- `update_state` (common.py lines 238-259): log any unexpected stdout
line, classify the new stderr lines (triggering handshake extraction on
the first occurrence), then poll the process and force the state to
`terminated` if it has exited. -/
def update_state (inst : Inst) (stdoutLines stderrLines : List String)
    (capExists : Bool) (toolRC : Nat) (exited : Bool) :
    Inst × List Act × Option PyErr :=
  let warns := if inst.stdout_r then stdoutLines.map Act.logWarn else []
  match foldStderr capExists toolRC inst stderrLines with
  | (i, acts, some e) => (i, warns ++ acts, some e)
  | (i, acts, none) =>
    if exited then ({ i with state := some State.terminated }, warns ++ acts, none)
    else (i, warns ++ acts, none)

/-- An access point row parsed from the airodump-ng CSV
(`csv_row_to_ap`, common.py lines 49-71); every field is the stripped
text of a CSV cell, so in particular `iv_sum` is a Python `str`. -/
structure CsvAp where
  bssid : String
  power : String
  channel : String
  encryption : String
  cipher : String
  auth_kind : String
  wps : String
  essid : String
  iv_sum : String
deriving DecidableEq, Repr

/-- `csv_row_to_ap` (common.py lines 49-71): build an access point record
from the stripped cells of a 15-column CSV row. -/
def csv_row_to_ap (row : List String) : CsvAp :=
  { bssid := (row.getD 0 "").trim,
    power := (row.getD 8 "").trim,
    channel := (row.getD 3 "").trim,
    encryption := (row.getD 5 "").trim,
    cipher := (row.getD 6 "").trim,
    auth_kind := (row.getD 7 "").trim,
    wps := (row.getD 6 "").trim,
    essid := (row.getD 13 "").trim,
    iv_sum := (row.getD 10 "").trim }

/-- `get_iv_sum` (common.py lines 327-336): when the capture result has at
least one access point, return the first one's `iv_sum` string; otherwise
return the integer `0`. -/
def get_iv_sum (aps : List CsvAp) : PyVal :=
  match aps with
  | a :: _ => .str a.iv_sum
  | [] => .int 0

end WirelessCapturer

namespace WepAttacker

/-- Per-call observation of one supervised process: the stdout lines and
stderr content newly readable from its temp files, and whether `poll()`
reports that it has exited. -/
structure Obs where
  lines : List String
  stderr : String
  exited : Bool

/-- The `for st in tmp_ap.associated_stations` body of the keystream
acquisition loop (wep.py lines 597-601): deauthenticate each associated
station, sleep 2 seconds, and break out of the round as soon as the
capturer reports the keystream file.  `avail i` models the result of the
i-th `capturer.has_prga_xor()` call; `checks` counts the calls made so
far.  Returns the emitted actions, the advanced call counter, and whether
the round broke out early. -/
def deauthRound (avail : Nat → Bool) : List String → Nat → List Act × Nat × Bool
  | [], checks => ([], checks, false)
  | st :: rest, checks =>
    if avail checks then ([Act.deauth st, Act.sleep 2], checks + 1, true)
    else
      match deauthRound avail rest (checks + 1) with
      | (acts, c2, b) => (Act.deauth st :: Act.sleep 2 :: acts, c2, b)

/-- The `while not capturer.has_prga_xor()` loop of the keystream
acquisition (wep.py lines 596-601), driven by the oracle `avail` and
bounded by `fuel`. -/
def acquireLoop (avail : Nat → Bool) (stations : List String) :
    Nat → Nat → List Act × Nat
  | 0, checks => ([], checks)
  | fuel + 1, checks =>
    if avail checks then ([], checks + 1)
    else
      match deauthRound avail stations (checks + 1) with
      | (acts, c2, _) =>
        match acquireLoop avail stations fuel c2 with
        | (acts2, c3) => (acts ++ acts2, c3)

/-- One pass of the fake-authentication supervision loop body
(wep.py lines 592-613): call `update_state`, then react to the
`needs_prga_xor` flag (acquire the keystream by deauthenticating
associated stations, persist it onto the access point, clean and restart
`FakeAuthentication`), then react to the `deauthenticated` flag (clean,
back off 5 seconds, restart).  A raised exception propagates.  Returns
the updated shared access point, the (possibly restarted) instance, the
emitted actions, the advanced `has_prga_xor` call counter, and the raised
exception if any. -/
def loopPass (avail : Nat → Bool) (stations : List String) (acqFuel : Nat)
    (ap : AccessPoint) (fa : FakeAuthentication.Inst) (o : Obs)
    (checks : Nat) :
    AccessPoint × FakeAuthentication.Inst × List Act × Nat × Option PyErr :=
  match FakeAuthentication.update_state ap fa o.lines o.stderr o.exited with
  | (fa1, some e) => (ap, fa1, [], checks, some e)
  | (fa1, none) =>
    match fa1.needs_prga_xor with
    | none => (ap, fa1, [], checks, some .keyError)
    | some needs =>
      let step1 :
          AccessPoint × FakeAuthentication.Inst × List Act × Nat × Option PyErr :=
        if needs then
          match acquireLoop avail stations acqFuel checks with
          | (actsAcq, c2) =>
            let ap2 := ap.save_prga_xor "capture-01.xor"
            match FakeAuthentication.clean fa1 with
            | (fa2, some e) =>
              (ap2, fa2, actsAcq ++ [Act.savePrgaXor, Act.cleanProc .fakeauth],
               c2, some e)
            | (fa2, none) =>
              match FakeAuthentication.start fa2 with
              | (fa3, sActs) =>
                (ap2, fa3,
                 actsAcq ++ [Act.savePrgaXor, Act.cleanProc .fakeauth] ++ sActs,
                 c2, none)
        else (ap, fa1, [], checks, none)
      match step1 with
      | (ap2, fa2, acts1, c2, some e) => (ap2, fa2, acts1, c2, some e)
      | (ap2, fa2, acts1, c2, none) =>
        match fa2.deauthenticated with
        | none => (ap2, fa2, acts1, c2, some .keyError)
        | some d =>
          if d then
            match FakeAuthentication.clean fa2 with
            | (fa3, some e) =>
              (ap2, fa3, acts1 ++ [Act.cleanProc .fakeauth], c2, some e)
            | (fa3, none) =>
              match FakeAuthentication.start fa3 with
              | (fa4, sActs) =>
                (ap2, fa4, acts1 ++ [Act.cleanProc .fakeauth, Act.sleep 5] ++ sActs,
                 c2, none)
          else (ap2, fa2, acts1, c2, none)

/-- The `while fake_authentication.state != ok` supervision loop
(wep.py lines 591-613), bounded by `fuel`; `obs i` is the feedback read by
the i-th iteration's `update_state`. -/
def fakeauthLoop (avail : Nat → Bool) (stations : List String) (acqFuel : Nat)
    (obs : Nat → Obs) :
    Nat → Nat → Nat → AccessPoint → FakeAuthentication.Inst →
    AccessPoint × FakeAuthentication.Inst × List Act × Option PyErr
  | 0, _, _, ap, fa => (ap, fa, [], none)
  | fuel + 1, i, checks, ap, fa =>
    if fa.state = some FakeAuthentication.State.ok then (ap, fa, [], none)
    else
      match loopPass avail stations acqFuel ap fa (obs i) checks with
      | (ap1, fa1, acts, _, some e) => (ap1, fa1, acts, some e)
      | (ap1, fa1, acts, c2, none) =>
        match fakeauthLoop avail stations acqFuel obs fuel (i + 1) c2 ap1 fa1 with
        | (ap2, fa2, acts2, e2) => (ap2, fa2, acts ++ acts2, e2)

/-- The `while not self.ap.is_cracked()` polling loop
(wep.py lines 626-640), bounded by `fuel`: update the fake-authentication,
ARP replay and cracker processes, then sleep 5 seconds.  A raised
exception propagates. -/
def crackLoop (faObs arpObs wcObs : Nat → Obs) :
    Nat → Nat → AccessPoint → FakeAuthentication.Inst → ArpReplay.Inst →
    WepCracker.Inst → AccessPoint × List Act × Option PyErr
  | 0, _, ap, _, _, _ => (ap, [], none)
  | fuel + 1, i, ap, fa, arp, wc =>
    if ap.is_cracked then (ap, [], none)
    else
      match FakeAuthentication.update_state ap fa (faObs i).lines (faObs i).stderr
          (faObs i).exited with
      | (_, some e) => (ap, [], some e)
      | (fa1, none) =>
        match ArpReplay.update_state ap arp (arpObs i).lines (arpObs i).stderr
            (arpObs i).exited with
        | (ap1, _, actsA, some e) => (ap1, actsA, some e)
        | (ap1, arp1, actsA, none) =>
          match WepCracker.update_state ap1 wc (wcObs i).lines (wcObs i).stderr
              (wcObs i).exited with
          | (ap2, _, actsW, some e) => (ap2, actsA ++ actsW, some e)
          | (ap2, wc1, actsW, none) =>
            match crackLoop faObs arpObs wcObs fuel (i + 1) ap2 fa1 arp1 wc1 with
            | (ap3, acts2, e2) =>
              (ap3, actsA ++ actsW ++ Act.sleep 5 :: acts2, e2)

/-- `start` (wep.py lines 571-650).  When the target is already cracked
and `force` is false the call returns immediately without doing anything;
otherwise the capture and fake-authentication processes are spawned, the
fake-authentication supervision loop runs until the state is `ok`, the
ARP replay and cracker processes are spawned after a settle delay, the
cracking loop polls until the target's cracked predicate holds, and all
four processes are stopped and cleaned. -/
def start (force : Bool) (ap : AccessPoint) (avail : Nat → Bool)
    (stations : List String) (acqFuel faFuel crackFuel : Nat)
    (faObs crFaObs crArpObs crWcObs : Nat → Obs) :
    AccessPoint × List Act × Option PyErr :=
  if !force && ap.is_cracked then (ap, [], none)
  else
    match FakeAuthentication.start FakeAuthentication.init with
    | (fa, faActs) =>
      let acts0 := Act.spawn .capturer :: faActs ++ [Act.sleep 1]
      match fakeauthLoop avail stations acqFuel faObs faFuel 0 0 ap fa with
      | (ap1, _, actsL, some e) => (ap1, acts0 ++ actsL, some e)
      | (ap1, fa1, actsL, none) =>
        match ArpReplay.start "replay-tmp" with
        | (arp, arpActs) =>
          match WepCracker.start WepCracker.init with
          | (wc, wcActs) =>
            let acts1 := arpActs ++ [Act.sleep 6] ++ wcActs
            match crackLoop crFaObs crArpObs crWcObs crackFuel 0 ap1 fa1 arp wc with
            | (ap2, acts2, some e) =>
              (ap2, acts0 ++ actsL ++ acts1 ++ acts2, some e)
            | (ap2, acts2, none) =>
              let actsEnd := [Act.stopProc .cracker, Act.cleanProc .cracker,
                Act.stopProc .capturer, Act.cleanProc .capturer,
                Act.stopProc .arpreplay, Act.cleanProc .arpreplay,
                Act.stopProc .fakeauth, Act.cleanProc .fakeauth]
              (ap2, acts0 ++ actsL ++ acts1 ++ acts2 ++ actsEnd, none)

end WepAttacker

/-! ## Helper lemmas about the digit-run tokens of the `cre_ok` pattern -/

lemma spanDigits_all (s : List Char) : ((spanDigits s).1).all isDig = true := by
  induction s with
  | nil => rfl
  | cons c t ih =>
    simp only [spanDigits]
    split
    · simp_all [List.all_cons]
    · rfl

lemma digits_foldl_pos (ds : List Char) :
    ∀ acc : Nat, (0 < acc ∨ ds.any isPosDig = true) →
      0 < ds.foldl (fun n c => 10 * n + (c.toNat - 48)) acc := by
  induction ds with
  | nil =>
    intro acc h
    simp only [List.any_nil] at h
    simpa using h.resolve_right (by simp)
  | cons c t ih =>
    intro acc h
    simp only [List.foldl_cons]
    apply ih
    rcases h with h | h
    · left; omega
    · simp only [List.any_cons, Bool.or_eq_true] at h
      rcases h with h | h
      · left
        simp only [isPosDig, Bool.and_eq_true, decide_eq_true_eq] at h
        omega
      · right; exact h

/-- A digit run containing a `[1-9]` digit denotes a positive number. -/
lemma digitsToNat_pos (ds : List Char) (h : ds.any isPosDig = true) :
    0 < digitsToNat ds :=
  digits_foldl_pos ds 0 (Or.inr h)

lemma posTok_some (s d r : List Char) (h : posTok s = some (d, r)) :
    d.any isPosDig = true ∧ d.all isDig = true ∧ d ≠ [] := by
  simp only [posTok] at h
  split at h
  · exact absurd h (by simp)
  · rename_i hc
    simp only [Bool.or_eq_true, not_or, Bool.not_eq_true] at hc
    obtain ⟨he, ha⟩ : ¬((spanDigits s).1.isEmpty = true) ∧
        ¬(!(spanDigits s).1.any isPosDig) = true := by
      constructor <;> simp_all
    simp only [Option.some.injEq, Prod.mk.injEq] at h
    obtain ⟨hd, hr⟩ := h
    subst hd
    refine ⟨?_, spanDigits_all s, ?_⟩
    · simpa using ha
    · intro hnil
      simp [hnil] at he

lemma numTok_some (s d r : List Char) (h : numTok s = some (d, r)) :
    d.all isDig = true ∧ d ≠ [] := by
  simp only [numTok] at h
  split at h
  · exact absurd h (by simp)
  · rename_i hc
    simp only [Option.some.injEq, Prod.mk.injEq] at h
    obtain ⟨hd, hr⟩ := h
    subst hd
    refine ⟨spanDigits_all s, ?_⟩
    intro hnil
    simp [hnil] at hc

/-- Every group captured by a successful `cre_ok` match is a digit run;
the `ARPs`, `ACKs` and `sent` groups moreover contain a `[1-9]` digit. -/
lemma creOkMatch_groups (line : String) (g : ArpReplay.OkGroups)
    (h : ArpReplay.creOkMatch line = some g) :
    (g.read.all isDig = true ∧ g.read ≠ []) ∧
    (g.ARPs.all isDig = true ∧ g.ARPs.any isPosDig = true) ∧
    (g.ACKs.all isDig = true ∧ g.ACKs.any isPosDig = true) ∧
    (g.sent.all isDig = true ∧ g.sent.any isPosDig = true) ∧
    (g.pps.all isDig = true ∧ g.pps ≠ []) := by
  simp only [ArpReplay.creOkMatch, bind, Option.bind_eq_some, Option.pure_def,
    Option.some.injEq] at h
  obtain ⟨s1, h1, ⟨rG, s2⟩, h2, s3, h3, ⟨aG, s4⟩, h4, s5, h5, ⟨kG, s6⟩, h6,
    s7, h7, ⟨tG, s8⟩, h8, s9, h9, s10, h10, s11, h11, ⟨pG, s12⟩, h12,
    s13, h13, hfin⟩ := h
  split at hfin
  · simp only [Option.some.injEq] at hfin
    subst hfin
    exact ⟨⟨(numTok_some _ _ _ h2).1, (numTok_some _ _ _ h2).2⟩,
      ⟨(posTok_some _ _ _ h4).2.1, (posTok_some _ _ _ h4).1⟩,
      ⟨(posTok_some _ _ _ h6).2.1, (posTok_some _ _ _ h6).1⟩,
      ⟨(posTok_some _ _ _ h8).2.1, (posTok_some _ _ _ h8).1⟩,
      ⟨(numTok_some _ _ _ h12).1, (numTok_some _ _ _ h12).2⟩⟩
  · exact absurd hfin (by simp)

/-! ## Helper lemmas about the ArpReplay classifier -/

/-- A line that does not match `cre_ok` leaves the stats dictionary
untouched and can only move the state to one of the two waiting states. -/
lemma arpLine_noMatch (ap : AccessPoint) (i : ArpReplay.Inst) (l : String)
    (h : ArpReplay.creOkMatch l = none) :
    ((ArpReplay.classifyLine ap i l).2.1).stats = i.stats ∧
    (((ArpReplay.classifyLine ap i l).2.1).state = i.state ∨
     ((ArpReplay.classifyLine ap i l).2.1).state
       = some ArpReplay.State.waiting_for_beacon_frame ∨
     ((ArpReplay.classifyLine ap i l).2.1).state
       = some ArpReplay.State.waiting_for_arp_request) := by
  simp only [ArpReplay.classifyLine, h]
  split
  · exact ⟨rfl, Or.inr (Or.inl rfl)⟩
  · split
    · exact ⟨rfl, Or.inr (Or.inr rfl)⟩
    · split
      · exact ⟨rfl, Or.inl rfl⟩
      · split
        · exact ⟨rfl, Or.inl rfl⟩
        · exact ⟨rfl, Or.inl rfl⟩

/-- A line matching `cre_ok` and none of the three earlier substring
branches sets the state to `ok` and overwrites all five stats with the
matched digit substrings. -/
lemma arpLine_match (ap : AccessPoint) (i : ArpReplay.Inst) (l : String)
    (g : ArpReplay.OkGroups) (hm : ArpReplay.creOkMatch l = some g)
    (h1 : hasSub l "Waiting for beacon frame" = false)
    (h2 : hasSub l "got 0 ARP requests" = false)
    (h3 : hasSub l "Notice: got a deauth/disassoc packet. Is the source MAC associated ?" = false) :
    ((ArpReplay.classifyLine ap i l).2.1).stats =
      { read := .str (String.mk g.read), ACKs := .str (String.mk g.ACKs),
        ARPs := .str (String.mk g.ARPs), sent := .str (String.mk g.sent),
        pps := .str (String.mk g.pps) } ∧
    ((ArpReplay.classifyLine ap i l).2.1).state = some ArpReplay.State.ok := by
  simp only [ArpReplay.classifyLine, hm, h1, h2, h3, Bool.false_eq_true,
    if_false]
  repeat' split
  all_goals exact ⟨rfl, rfl⟩

/-! ## Claims C3, C9, C10 -/

/-- C3 counterexample: feeding the documented progress line stores the
*string* `"120"` in `stats['read']`, not the *integer* `120` that the
claim's `stats = (read:120, ...)` asserts. -/
theorem claim3_counterexample :
    ((ArpReplay.update_state ⟨none, none, none⟩ (ArpReplay.start "tmp").1
        ["Read 120 packets (got 40 ARP requests and 38 ACKs), sent 4000 packets...(512 pps)"]
        "" false).2.1).stats.read = PyVal.str "120" ∧
    ((ArpReplay.update_state ⟨none, none, none⟩ (ArpReplay.start "tmp").1
        ["Read 120 packets (got 40 ARP requests and 38 ACKs), sent 4000 packets...(512 pps)"]
        "" false).2.1).stats.read ≠ PyVal.int 120 := by
  constructor
  · decide
  · decide

/-- C3 (amended): the five stats are updated only by a line fully matching
`cre_ok` — a partially matching line updates nothing — and the stored
values are exactly the matched digit substrings (Python strings denoting
non-negative integers); the documented progress line yields state `ok` and
stats `("120", "40", "38", "4000", "512")`. -/
theorem claim3_stats_update :
    (∀ ap i l stderr exited, ArpReplay.creOkMatch l = none →
      ((ArpReplay.update_state ap i [l] stderr exited).2.1).stats = i.stats) ∧
    (∀ ap i l g stderr,
      ArpReplay.creOkMatch l = some g →
      hasSub l "Waiting for beacon frame" = false →
      hasSub l "got 0 ARP requests" = false →
      hasSub l "Notice: got a deauth/disassoc packet. Is the source MAC associated ?" = false →
      ((ArpReplay.update_state ap i [l] stderr false).2.1).stats =
        { read := .str (String.mk g.read), ACKs := .str (String.mk g.ACKs),
          ARPs := .str (String.mk g.ARPs), sent := .str (String.mk g.sent),
          pps := .str (String.mk g.pps) } ∧
      (stderr = "" →
        ((ArpReplay.update_state ap i [l] stderr false).2.1).state
          = some ArpReplay.State.ok) ∧
      g.read.all isDig = true ∧ g.ARPs.all isDig = true ∧
      g.ACKs.all isDig = true ∧ g.sent.all isDig = true ∧
      g.pps.all isDig = true) ∧
    (((ArpReplay.update_state ⟨none, none, none⟩ (ArpReplay.start "tmp").1
        ["Read 120 packets (got 40 ARP requests and 38 ACKs), sent 4000 packets...(512 pps)"]
        "" false).2.1).state = some ArpReplay.State.ok ∧
     ((ArpReplay.update_state ⟨none, none, none⟩ (ArpReplay.start "tmp").1
        ["Read 120 packets (got 40 ARP requests and 38 ACKs), sent 4000 packets...(512 pps)"]
        "" false).2.1).stats =
       { read := .str "120", ACKs := .str "38", ARPs := .str "40",
         sent := .str "4000", pps := .str "512" }) := by
  refine ⟨?_, ?_, by decide, by decide⟩
  · intro ap i l stderr exited h
    have hl := arpLine_noMatch ap i l h
    simp only [ArpReplay.update_state, ArpReplay.classifyLines]
    rcases hc : ArpReplay.classifyLine ap i l with ⟨ap1, i1, a1⟩
    rw [hc] at hl
    split
    · exact hl.1
    · split
      · exact hl.1
      · exact hl.1
  · intro ap i l g stderr hm h1 h2 h3
    have hl := arpLine_match ap i l g hm h1 h2 h3
    refine ⟨?_, ?_, (creOkMatch_groups l g hm).1.1,
      (creOkMatch_groups l g hm).2.1.1, (creOkMatch_groups l g hm).2.2.1.1,
      (creOkMatch_groups l g hm).2.2.2.1.1, (creOkMatch_groups l g hm).2.2.2.2.1⟩
    · simp only [ArpReplay.update_state, ArpReplay.classifyLines]
      rcases hc : ArpReplay.classifyLine ap i l with ⟨ap1, i1, a1⟩
      rw [hc] at hl
      split
      · exact hl.1
      · exact hl.1
    · intro hs
      subst hs
      simp only [ArpReplay.update_state, ArpReplay.classifyLines]
      rcases hc : ArpReplay.classifyLine ap i l with ⟨ap1, i1, a1⟩
      rw [hc] at hl
      simp
      exact hl.2

/-- C3 witness: the quantified parts of `claim3_stats_update` evaluated at
concrete lines. -/
theorem claim3_witness :
    ((ArpReplay.update_state ⟨none, none, none⟩ (ArpReplay.start "tmp").1
        ["Association successful :-)"] "" false).2.1).stats
      = ((ArpReplay.start "tmp").1).stats ∧
    ((ArpReplay.update_state ⟨none, none, none⟩ (ArpReplay.start "tmp").1
        ["Read 5 packets (got 1 ARP requests and 2 ACKs), sent 3 packets...(9 pps)"]
        "" false).2.1).stats =
      { read := .str "5", ACKs := .str "2", ARPs := .str "1",
        sent := .str "3", pps := .str "9" } := by
  constructor
  · exact claim3_stats_update.1 ⟨none, none, none⟩ (ArpReplay.start "tmp").1
      "Association successful :-)" "" false (by decide)
  · have h := (claim3_stats_update.2.1 ⟨none, none, none⟩ (ArpReplay.start "tmp").1
      "Read 5 packets (got 1 ARP requests and 2 ACKs), sent 3 packets...(9 pps)"
      ⟨"5".data, "1".data, "2".data, "3".data, "9".data⟩ ""
      (by decide) (by decide) (by decide) (by decide)).1
    exact h

/-- C9: a progress line can match `cre_ok` only if its ARP-request, ACK
and sent-packet groups denote strictly positive numbers; a non-matching
line never newly sets the state to `ok` and never touches the stats; and a
line containing `got 0 ARP requests` (and not the beacon text) sets the
state to `waiting_for_arp_request`. -/
theorem claim9_positive_groups :
    (∀ l g, ArpReplay.creOkMatch l = some g →
      0 < digitsToNat g.ARPs ∧ 0 < digitsToNat g.ACKs ∧ 0 < digitsToNat g.sent) ∧
    (∀ ap i l stderr, ArpReplay.creOkMatch l = none →
      ((ArpReplay.update_state ap i [l] stderr false).2.1).stats = i.stats ∧
      (((ArpReplay.update_state ap i [l] stderr false).2.1).state
          = some ArpReplay.State.ok → i.state = some ArpReplay.State.ok)) ∧
    (∀ ap i l, hasSub l "got 0 ARP requests" = true →
      hasSub l "Waiting for beacon frame" = false →
      ((ArpReplay.update_state ap i [l] "" false).2.1).state
        = some ArpReplay.State.waiting_for_arp_request) := by
  refine ⟨?_, ?_, ?_⟩
  · intro l g hm
    obtain ⟨_, ⟨_, ha⟩, ⟨_, hk⟩, ⟨_, ht⟩, _⟩ := creOkMatch_groups l g hm
    exact ⟨digitsToNat_pos _ ha, digitsToNat_pos _ hk, digitsToNat_pos _ ht⟩
  · intro ap i l stderr h
    have hl := arpLine_noMatch ap i l h
    simp only [ArpReplay.update_state, ArpReplay.classifyLines]
    rcases hc : ArpReplay.classifyLine ap i l with ⟨ap1, i1, a1⟩
    rw [hc] at hl
    constructor
    · split
      · exact hl.1
      · split
        · exact hl.1
        · exact hl.1
    · intro hok
      rcases hl.2 with h2 | h2 | h2
      · rw [← h2]
        split at hok
        · exact hok
        · split at hok
          · exact absurd hok (by simp)
          · exact hok
      all_goals
        split at hok
        · rw [h2] at hok; exact absurd hok (by simp)
        · split at hok
          · exact absurd hok (by simp)
          · rw [h2] at hok; exact absurd hok (by simp)
  · intro ap i l h1 h2
    simp only [ArpReplay.update_state, ArpReplay.classifyLines,
      ArpReplay.classifyLine, h1, h2, Bool.false_eq_true, if_false, if_true]
    rfl

/-- C9 witness: `claim9_positive_groups` applied to concrete lines. -/
theorem claim9_witness :
    (0 < digitsToNat "40".data ∧ 0 < digitsToNat "38".data ∧
     0 < digitsToNat "4000".data) ∧
    ((ArpReplay.update_state ⟨none, none, none⟩ (ArpReplay.start "tmp").1
        ["Read 12 packets (got 0 ARP requests and 0 ACKs), sent 0 packets...(0 pps)"]
        "" false).2.1).state = some ArpReplay.State.waiting_for_arp_request := by
  constructor
  · exact claim9_positive_groups.1
      "Read 120 packets (got 40 ARP requests and 38 ACKs), sent 4000 packets...(512 pps)"
      ⟨"120".data, "40".data, "38".data, "4000".data, "512".data⟩ (by decide)
  · exact claim9_positive_groups.2.2 ⟨none, none, none⟩ (ArpReplay.start "tmp").1
      "Read 12 packets (got 0 ARP requests and 0 ACKs), sent 0 packets...(0 pps)"
      (by decide) (by decide)

/-- C10: `get_iv_sum` returns the first access point's `iv_sum` CSV cell —
a string — whenever the capture result is nonempty, and the integer `0`
when it is empty, so the dynamic return type differs between the two
cases.  The `iv_sum` field itself is the stripped 11th CSV cell. -/
theorem claim10_iv_sum :
    (∀ (a : WirelessCapturer.CsvAp) (rest : List WirelessCapturer.CsvAp),
      WirelessCapturer.get_iv_sum (a :: rest) = PyVal.str a.iv_sum ∧
      (WirelessCapturer.get_iv_sum (a :: rest)).isStr = true ∧
      (WirelessCapturer.get_iv_sum (a :: rest)).isInt = false) ∧
    (WirelessCapturer.get_iv_sum [] = PyVal.int 0 ∧
     (WirelessCapturer.get_iv_sum []).isInt = true ∧
     (WirelessCapturer.get_iv_sum []).isStr = false) ∧
    (∀ row : List String,
      (WirelessCapturer.csv_row_to_ap row).iv_sum = (row.getD 10 "").trim) := by
  exact ⟨fun a rest => ⟨rfl, rfl, rfl⟩, ⟨rfl, rfl, rfl⟩, fun row => rfl⟩


/-! ## Helper lemmas about the WepCracker stdout loop -/

lemma wcFold_indep : ∀ (ls : List String) (ap : AccessPoint)
    (s t : Option WepCracker.State),
    (WepCracker.foldLines ap s ls).1 = (WepCracker.foldLines ap t ls).1 ∧
    (WepCracker.foldLines ap s ls).2.2 = (WepCracker.foldLines ap t ls).2.2 := by
  intro ls
  induction ls with
  | nil => intro ap s t; exact ⟨rfl, rfl⟩
  | cons l ls ih =>
    intro ap s t
    simp only [WepCracker.foldLines]
    cases hf : hasSub l "Failed. Next try with"
    · simp only [hf, Bool.false_eq_true, if_false]
      cases hk : hasSub l "KEY FOUND!"
      · simp only [hk, Bool.false_eq_true, if_false]
        cases hd : hasSub l "Decrypted correctly:"
        · simp only [hd, Bool.false_eq_true, if_false]
          exact ih ap s t
        · simp only [hd, eq_self_iff_true, if_true]
          cases hp : hasSub l "100%"
          · simp [hp]
          · simp only [hp, eq_self_iff_true, if_true]
            exact ih ap s t
      · simp only [hk, eq_self_iff_true, if_true]
        rcases hA : WepCracker.foldLines (ap.save_psk_file "psk.hex")
            (if s ≠ some WepCracker.State.terminated then some WepCracker.State.ok else s)
            ls with ⟨apA, sA, actsA, eA⟩
        rcases hB : WepCracker.foldLines (ap.save_psk_file "psk.hex")
            (if t ≠ some WepCracker.State.terminated then some WepCracker.State.ok else t)
            ls with ⟨apB, sB, actsB, eB⟩
        have h2 := ih (ap.save_psk_file "psk.hex")
          (if s ≠ some WepCracker.State.terminated then some WepCracker.State.ok else s)
          (if t ≠ some WepCracker.State.terminated then some WepCracker.State.ok else t)
        rw [hA, hB] at h2
        simp only [Prod.mk.injEq] at h2
        simp only [Prod.mk.injEq]
        exact ⟨h2.1, by rw [h2.2.1], h2.2.2⟩
    · simp only [hf, eq_self_iff_true, if_true]
      exact ih ap _ _

lemma wcFold_fixed (s : Option WepCracker.State)
    (hs : (if s ≠ some WepCracker.State.terminated
             then some WepCracker.State.ok else s) = s) :
    ∀ (ls : List String) (ap : AccessPoint),
      (WepCracker.foldLines ap s ls).2.1 = s := by
  intro ls
  induction ls with
  | nil => intro ap; rfl
  | cons l ls ih =>
    intro ap
    simp only [WepCracker.foldLines]
    cases hf : hasSub l "Failed. Next try with"
    · simp only [hf, Bool.false_eq_true, if_false]
      cases hk : hasSub l "KEY FOUND!"
      · simp only [hk, Bool.false_eq_true, if_false]
        cases hd : hasSub l "Decrypted correctly:"
        · simp only [hd, Bool.false_eq_true, if_false]
          exact ih ap
        · simp only [hd, eq_self_iff_true, if_true]
          cases hp : hasSub l "100%"
          · simp only [hp, Bool.false_eq_true, if_false]
          · simp only [hp, eq_self_iff_true, if_true]
            exact ih ap
      · simp only [hk, eq_self_iff_true, if_true, hs]
        rcases hA : WepCracker.foldLines (ap.save_psk_file "psk.hex") s ls
          with ⟨apA, sA, actsA, eA⟩
        have h2 := ih (ap.save_psk_file "psk.hex")
        rw [hA] at h2
        simpa using h2
    · simp only [hf, eq_self_iff_true, if_true, hs]
      exact ih ap

lemma wcFold_err : ∀ (ls : List String) (ap : AccessPoint)
    (s : Option WepCracker.State),
    (WepCracker.foldLines ap s ls).2.2.2 = none ∨
    (WepCracker.foldLines ap s ls).2.2.2 = some PyErr.assertionError := by
  intro ls
  induction ls with
  | nil => intro ap s; exact Or.inl rfl
  | cons l ls ih =>
    intro ap s
    simp only [WepCracker.foldLines]
    cases hf : hasSub l "Failed. Next try with"
    · simp only [hf, Bool.false_eq_true, if_false]
      cases hk : hasSub l "KEY FOUND!"
      · simp only [hk, Bool.false_eq_true, if_false]
        cases hd : hasSub l "Decrypted correctly:"
        · simp only [hd, Bool.false_eq_true, if_false]
          exact ih ap s
        · simp only [hd, eq_self_iff_true, if_true]
          cases hp : hasSub l "100%"
          · simp [hp]
          · simp only [hp, eq_self_iff_true, if_true]
            exact ih ap s
      · simp only [hk, eq_self_iff_true, if_true]
        rcases hA : WepCracker.foldLines (ap.save_psk_file "psk.hex")
            (if s ≠ some WepCracker.State.terminated then some WepCracker.State.ok else s)
            ls with ⟨apA, sA, actsA, eA⟩
        have h2 := ih (ap.save_psk_file "psk.hex")
          (if s ≠ some WepCracker.State.terminated then some WepCracker.State.ok else s)
        rw [hA] at h2
        simpa using h2
    · simp only [hf, eq_self_iff_true, if_true]
      exact ih ap _

/-! ## Claims C1, C4, C6 -/

/-- C1: within one `update_state` call of each process kind, all available
stdout lines are classified (their state, flag, stat and side-effect rules
applied) before the exit-code poll takes effect.  For FakeAuthentication
and ArpReplay the code applies the poll last, so flags, stats, emitted
side effects and the classified state are exactly those of the classifier
pass, with only the final state forced to `terminated` on exit; WepCracker
applies the poll first, but on every run that raises no exception its
result coincides with the classify-then-poll order
(`update_state_specOrder`), so no final burst of output is lost there
either. -/
theorem claim1_lines_before_poll :
    (∀ ap (i : FakeAuthentication.Inst) lines stderr exited,
      ((FakeAuthentication.update_state ap i lines stderr exited).1.deauthenticated
         = (FakeAuthentication.classifyLines ap i lines).deauthenticated) ∧
      ((FakeAuthentication.update_state ap i lines stderr exited).1.needs_prga_xor
         = (FakeAuthentication.classifyLines ap i lines).needs_prga_xor) ∧
      (stderr = "" → exited = true →
        (FakeAuthentication.update_state ap i lines stderr exited).1.state
          = some FakeAuthentication.State.terminated) ∧
      (stderr = "" → exited = false →
        (FakeAuthentication.update_state ap i lines stderr exited).1.state
          = (FakeAuthentication.classifyLines ap i lines).state)) ∧
    (∀ ap (i : ArpReplay.Inst) lines stderr exited,
      ((ArpReplay.update_state ap i lines stderr exited).1
         = (ArpReplay.classifyLines ap i lines).1) ∧
      ((ArpReplay.update_state ap i lines stderr exited).2.2.1
         = (ArpReplay.classifyLines ap i lines).2.2) ∧
      ((ArpReplay.update_state ap i lines stderr exited).2.1.stats
         = (ArpReplay.classifyLines ap i lines).2.1.stats) ∧
      (stderr = "" → exited = true →
        (ArpReplay.update_state ap i lines stderr exited).2.1.state
          = some ArpReplay.State.terminated)) ∧
    (∀ ap (i : WepCracker.Inst) lines stderr exited,
      (WepCracker.update_state ap i lines stderr exited).2.2.2 = none →
      WepCracker.update_state ap i lines stderr exited
        = WepCracker.update_state_specOrder ap i lines stderr exited) := by
  refine ⟨?_, ?_, ?_⟩
  · intro ap i lines stderr exited
    simp only [FakeAuthentication.update_state]
    refine ⟨?_, ?_, ?_, ?_⟩
    · split
      · rfl
      · split <;> rfl
    · split
      · rfl
      · split <;> rfl
    · intro hs he
      subst hs he
      simp
    · intro hs he
      subst hs he
      simp
  · intro ap i lines stderr exited
    simp only [ArpReplay.update_state]
    rcases hc : ArpReplay.classifyLines ap i lines with ⟨ap1, i1, a1⟩
    refine ⟨?_, ?_, ?_, ?_⟩
    · split
      · rfl
      · split <;> rfl
    · split
      · rfl
      · split <;> rfl
    · split
      · rfl
      · split <;> rfl
    · intro hs he
      subst hs he
      simp
  · intro ap i lines stderr exited herr
    cases he : exited
    · simp only [WepCracker.update_state, WepCracker.update_state_specOrder,
        Bool.false_eq_true, if_false]
    · have hterm := wcFold_fixed (some WepCracker.State.terminated) (by decide) lines ap
      have hind := wcFold_indep lines ap (some WepCracker.State.terminated) i.state
      rw [he] at herr
      simp only [WepCracker.update_state, eq_self_iff_true, if_true] at herr ⊢
      simp only [WepCracker.update_state_specOrder]
      rcases hA : WepCracker.foldLines ap (some WepCracker.State.terminated) lines
        with ⟨apA, sA, actsA, eA⟩
      rcases hB : WepCracker.foldLines ap i.state lines with ⟨apB, sB, actsB, eB⟩
      rw [hA, hB] at hind
      rw [hA] at hterm herr
      simp only [Prod.mk.injEq] at hind
      obtain ⟨hap, hacts, herrEq⟩ := hind
      simp only at hterm
      subst hap hacts herrEq hterm
      cases eA with
      | some e => simp at herr
      | none =>
        simp only at herr ⊢
        cases hst : decide (stderr ≠ "") with
        | true =>
          rw [if_pos (of_decide_eq_true hst)] at herr
          simp at herr
        | false =>
          rw [if_neg (of_decide_eq_false hst), if_neg (of_decide_eq_false hst)]
          simp

/-- C1 witness: the WepCracker order-equivalence applied to a concrete
exited process with a pending output burst, and the FakeAuthentication
terminated-state conjunct at a concrete input. -/
theorem claim1_witness :
    (WepCracker.update_state ⟨none, none, none⟩ (WepCracker.start WepCracker.init).1
        ["Failed. Next try with 5000 IVs"] "" true).2.2.2 = none ∧
    WepCracker.update_state ⟨none, none, none⟩ (WepCracker.start WepCracker.init).1
        ["Failed. Next try with 5000 IVs"] "" true
      = WepCracker.update_state_specOrder ⟨none, none, none⟩
          (WepCracker.start WepCracker.init).1 ["Failed. Next try with 5000 IVs"] "" true ∧
    (FakeAuthentication.update_state ⟨none, none, none⟩
        (FakeAuthentication.start FakeAuthentication.init).1
        ["Association successful :-)"] "" true).1.state
      = some FakeAuthentication.State.terminated :=
  ⟨by decide,
   claim1_lines_before_poll.2.2 ⟨none, none, none⟩ (WepCracker.start WepCracker.init).1
     ["Failed. Next try with 5000 IVs"] "" true (by decide),
   (claim1_lines_before_poll.1 ⟨none, none, none⟩
     (FakeAuthentication.start FakeAuthentication.init).1
     ["Association successful :-)"] "" true).2.2.1 rfl rfl⟩

/-- C4: a `KEY FOUND!` line makes `update_state` persist the generated key
file exactly once for that line and leaves the state at `ok`; the state
stays `ok` across updates as long as the process has not exited, and
becomes `terminated` once it has. -/
theorem claim4_key_found :
    (((WepCracker.update_state ⟨none, none, none⟩ (WepCracker.start WepCracker.init).1
        ["KEY FOUND! [ AB:CD:EF:01:02:03 ]"] "" false)).2.1.state
        = some WepCracker.State.ok ∧
     ((WepCracker.update_state ⟨none, none, none⟩ (WepCracker.start WepCracker.init).1
        ["KEY FOUND! [ AB:CD:EF:01:02:03 ]"] "" false)).2.2.1 = [Act.savePskFile] ∧
     ((WepCracker.update_state ⟨none, none, none⟩ (WepCracker.start WepCracker.init).1
        ["KEY FOUND! [ AB:CD:EF:01:02:03 ]"] "" false)).2.2.2 = none ∧
     ((WepCracker.update_state ⟨none, none, none⟩ (WepCracker.start WepCracker.init).1
        ["KEY FOUND! [ AB:CD:EF:01:02:03 ]"] "" false)).1.is_cracked = true) ∧
    (∀ ap (i : WepCracker.Inst) lines stderr,
      i.state = some WepCracker.State.ok →
      ((WepCracker.update_state ap i lines stderr false)).2.1.state
        = some WepCracker.State.ok) ∧
    (∀ ap (i : WepCracker.Inst) lines stderr,
      ((WepCracker.update_state ap i lines stderr true)).2.1.state
        = some WepCracker.State.terminated) := by
  refine ⟨by decide, ?_, ?_⟩
  · intro ap i lines stderr h
    have hfix := wcFold_fixed (some WepCracker.State.ok) (by decide) lines ap
    simp only [WepCracker.update_state, Bool.false_eq_true, if_false, h]
    rcases hA : WepCracker.foldLines ap (some WepCracker.State.ok) lines
      with ⟨ap1, s1, acts, e⟩
    rw [hA] at hfix
    simp only at hfix
    subst hfix
    cases e
    · simp only
      split <;> rfl
    · rfl
  · intro ap i lines stderr
    have hfix := wcFold_fixed (some WepCracker.State.terminated) (by decide) lines ap
    simp only [WepCracker.update_state, eq_self_iff_true, if_true]
    rcases hA : WepCracker.foldLines ap (some WepCracker.State.terminated) lines
      with ⟨ap1, s1, acts, e⟩
    rw [hA] at hfix
    simp only at hfix
    subst hfix
    cases e
    · simp only
      split <;> rfl
    · rfl


/-- C4 witness: the quantified conjuncts of `claim4_key_found` at concrete
inputs. -/
theorem claim4_witness :
    ((WepCracker.update_state ⟨none, none, none⟩ (WepCracker.start WepCracker.init).1
        ["Aircrack-ng 1.2 beta3"] "" false)).2.1.state = some WepCracker.State.ok ∧
    ((WepCracker.update_state ⟨none, none, none⟩ (WepCracker.start WepCracker.init).1
        [] "" true)).2.1.state = some WepCracker.State.terminated :=
  ⟨claim4_key_found.2.1 ⟨none, none, none⟩ (WepCracker.start WepCracker.init).1
     ["Aircrack-ng 1.2 beta3"] "" (by decide),
   claim4_key_found.2.2 ⟨none, none, none⟩ (WepCracker.start WepCracker.init).1 [] ""⟩

/-- C6 counterexample: an `update_state` call that observes unexpected
non-empty stderr fails with a hard `AssertionError` — it is not reported
as a recoverable protocol violation, and the attack does not continue. -/
theorem claim6_counterexample :
    (FakeAuthentication.update_state ⟨none, none, none⟩
        (FakeAuthentication.start FakeAuthentication.init).1 [] "x" false).2
      = some PyErr.assertionError := by
  decide

/-- C6 (amended): for each kind whose stderr is expected silent
(FakeAuthentication, ArpReplay, WepCracker), an `update_state` call that
observes non-empty stderr content raises `AssertionError`, aborting the
call. -/
theorem claim6_stderr_assert :
    ∀ stderr, stderr ≠ "" →
    (∀ ap (i : FakeAuthentication.Inst) lines exited,
      (FakeAuthentication.update_state ap i lines stderr exited).2
        = some PyErr.assertionError) ∧
    (∀ ap (i : ArpReplay.Inst) lines exited,
      (ArpReplay.update_state ap i lines stderr exited).2.2.2
        = some PyErr.assertionError) ∧
    (∀ ap (i : WepCracker.Inst) lines exited,
      (WepCracker.update_state ap i lines stderr exited).2.2.2
        = some PyErr.assertionError) := by
  intro stderr hs
  refine ⟨?_, ?_, ?_⟩
  · intro ap i lines exited
    simp only [FakeAuthentication.update_state, if_pos hs]
  · intro ap i lines exited
    simp only [ArpReplay.update_state]
    rcases hc : ArpReplay.classifyLines ap i lines with ⟨ap1, i1, a1⟩
    simp only [if_pos hs]
  · intro ap i lines exited
    simp only [WepCracker.update_state]
    rcases hA : WepCracker.foldLines ap
        (if exited then some WepCracker.State.terminated else i.state) lines
      with ⟨ap1, s1, acts, e⟩
    have herr := wcFold_err lines ap
      (if exited then some WepCracker.State.terminated else i.state)
    rw [hA] at herr
    simp only at herr
    cases e
    · simp only [if_pos hs]
    · rcases herr with h | h
      · exact absurd h (by simp)
      · simpa using h

/-- C6 witness: `claim6_stderr_assert` at a concrete non-empty stderr. -/
theorem claim6_witness :
    (ArpReplay.update_state ⟨none, none, none⟩ (ArpReplay.start "tmp").1
        [] "unexpected" false).2.2.2 = some PyErr.assertionError :=
  (claim6_stderr_assert "unexpected" (by decide)).2.1 ⟨none, none, none⟩
    (ArpReplay.start "tmp").1 [] false


/-! ## Helper lemmas about `clean`, and claim C2 -/

lemma faClean_open (i : FakeAuthentication.Inst) (h1 : i.stdout_r = true)
    (h2 : i.stdout_w = true) (h3 : i.stderr_r = true) (h4 : i.stderr_w = true) :
    FakeAuthentication.clean i = (FakeAuthentication.init, none) := by
  rcases i with ⟨st, de, np, pr, r1, w1, r2, w2⟩
  simp only at h1 h2 h3 h4
  subst h1 h2 h3 h4
  cases pr <;> rfl

lemma wcClean_open (i : WepCracker.Inst) (h1 : i.stdout_r = true)
    (h2 : i.stdout_w = true) (h3 : i.stderr_r = true) (h4 : i.stderr_w = true)
    (h5 : i.tmp_dir = true) :
    WepCracker.clean i = (WepCracker.init, none) := by
  rcases i with ⟨st, pr, td, r1, w1, r2, w2⟩
  simp only at h1 h2 h3 h4 h5
  subst h1 h2 h3 h4 h5
  cases pr <;> rfl

/-- C2 counterexample: `clean()` on a never-started instance raises
`AttributeError` (closing a `None` handle), for both FakeAuthentication
and WepCracker — so `clean` is not safe on a never-started or
already-cleaned instance. -/
theorem claim2_counterexample :
    (FakeAuthentication.clean FakeAuthentication.init).2 = some PyErr.attributeError ∧
    (WepCracker.clean WepCracker.init).2 = some PyErr.attributeError := by
  decide

/-- C2 (amended): on an instance whose temp-file handles are open,
`clean()` succeeds and resets the whole in-memory state — state `None`,
flag dictionary empty, no process, no handles (the freshly constructed
state); a second `clean()` leaves that state unchanged but raises
`AttributeError`, and `clean()` on a never-started instance raises
`AttributeError` as well (see the counterexample). -/
theorem claim2_clean_lifecycle :
    (∀ i : FakeAuthentication.Inst, i.stdout_r = true → i.stdout_w = true →
      i.stderr_r = true → i.stderr_w = true →
      FakeAuthentication.clean i = (FakeAuthentication.init, none) ∧
      FakeAuthentication.clean (FakeAuthentication.clean i).1
        = ((FakeAuthentication.clean i).1, some PyErr.attributeError)) ∧
    (∀ i : WepCracker.Inst, i.stdout_r = true → i.stdout_w = true →
      i.stderr_r = true → i.stderr_w = true → i.tmp_dir = true →
      WepCracker.clean i = (WepCracker.init, none) ∧
      WepCracker.clean (WepCracker.clean i).1
        = ((WepCracker.clean i).1, some PyErr.attributeError)) := by
  constructor
  · intro i h1 h2 h3 h4
    have h := faClean_open i h1 h2 h3 h4
    refine ⟨h, ?_⟩
    rw [h]
    decide
  · intro i h1 h2 h3 h4 h5
    have h := wcClean_open i h1 h2 h3 h4 h5
    refine ⟨h, ?_⟩
    rw [h]
    decide

/-- C2 witness: `claim2_clean_lifecycle` applied to freshly started
instances. -/
theorem claim2_witness :
    FakeAuthentication.clean (FakeAuthentication.start FakeAuthentication.init).1
      = (FakeAuthentication.init, none) ∧
    WepCracker.clean (WepCracker.start WepCracker.init).1 = (WepCracker.init, none) :=
  ⟨(claim2_clean_lifecycle.1 (FakeAuthentication.start FakeAuthentication.init).1
      rfl rfl rfl rfl).1,
   (claim2_clean_lifecycle.2 (WepCracker.start WepCracker.init).1
      rfl rfl rfl rfl rfl).1⟩

/-! ## Helper lemmas about the WirelessCapturer stderr loop -/

lemma capFold_detected (c : Bool) (r : Nat) (i : WirelessCapturer.Inst)
    (h : i.detected_wpa_handshake = some true) :
    ∀ ls, WirelessCapturer.foldStderr c r i ls = (i, [], none) := by
  intro ls
  induction ls with
  | nil => rfl
  | cons l ls ih =>
    simp only [WirelessCapturer.foldStderr]
    cases hw : hasSub l "WPA handshake:"
    · simp only [hw, Bool.false_eq_true, if_false]
      exact ih
    · simp only [hw, eq_self_iff_true, if_true, h]
      exact ih

lemma capFold_first (i : WirelessCapturer.Inst)
    (h : i.detected_wpa_handshake = some false) :
    ∀ ls, WirelessCapturer.foldStderr true 0 i ls =
      (if ls.any (fun l => hasSub l "WPA handshake:") then
        ({ i with
            detected_wpa_handshake := some true,
            wpa_handshake_cap_path := some "WPA_handshake.cap" },
         [Act.runCleanTool], none)
      else (i, [], none)) := by
  intro ls
  induction ls with
  | nil => rfl
  | cons l ls ih =>
    by_cases hw : hasSub l "WPA handshake:" = true
    · have hext : WirelessCapturer.extractWpaHandshake
          { i with detected_wpa_handshake := some true } true 0
          = ({ i with
                detected_wpa_handshake := some true,
                wpa_handshake_cap_path := some "WPA_handshake.cap" },
             [Act.runCleanTool], none) := rfl
      simp only [WirelessCapturer.foldStderr, List.any_cons, hw,
        eq_self_iff_true, if_true, h, Bool.true_or]
      have hrec := capFold_detected true 0
        ({ i with
            detected_wpa_handshake := some true,
            wpa_handshake_cap_path := some "WPA_handshake.cap" }) rfl ls
      rw [hext]
      simp [hrec]
    · rw [Bool.not_eq_true] at hw
      simp only [WirelessCapturer.foldStderr, List.any_cons, hw,
        Bool.false_eq_true, if_false, Bool.false_or]
      exact ih

lemma warns_count (b : Bool) (sout : List String) :
    ((if b then sout.map Act.logWarn else []).count Act.runCleanTool) = 0 := by
  cases b
  · rfl
  · simp only [if_true]
    induction sout with
    | nil => rfl
    | cons l ls ih => simpa [List.count_cons] using ih

/-- C8: during a Capture `update_state`, a stderr line containing
`WPA handshake:` sets the detected-handshake flag and triggers the
handshake extraction only on its first occurrence — once the flag holds,
later occurrences run the tool zero further times and change nothing —
and the extraction raises an error exactly when the main capture file is
missing (`FileNotFoundError`, before the tool is invoked) or the
clean-capture tool exits non-zero (`CalledProcessError`); on success the
extracted handshake path is recorded. -/
theorem claim8_handshake_extraction :
    (∀ (i : WirelessCapturer.Inst) sout serr exited,
      i.detected_wpa_handshake = some false →
      serr.any (fun l => hasSub l "WPA handshake:") = true →
      ((WirelessCapturer.update_state i sout serr true 0 exited).2.1).count
          Act.runCleanTool = 1 ∧
      (WirelessCapturer.update_state i sout serr true 0 exited).2.2 = none ∧
      (WirelessCapturer.update_state i sout serr true 0 exited).1.detected_wpa_handshake
        = some true ∧
      (WirelessCapturer.update_state i sout serr true 0 exited).1.wpa_handshake_cap_path
        = some "WPA_handshake.cap") ∧
    (∀ (i : WirelessCapturer.Inst) sout serr capEx rc exited,
      i.detected_wpa_handshake = some true →
      ((WirelessCapturer.update_state i sout serr capEx rc exited).2.1).count
          Act.runCleanTool = 0 ∧
      (WirelessCapturer.update_state i sout serr capEx rc exited).2.2 = none ∧
      (WirelessCapturer.update_state i sout serr capEx rc exited).1.wpa_handshake_cap_path
        = i.wpa_handshake_cap_path) ∧
    (∀ (i : WirelessCapturer.Inst) l capEx rc exited,
      i.detected_wpa_handshake = some false →
      hasSub l "WPA handshake:" = true →
      (WirelessCapturer.update_state i [] [l] capEx rc exited).2.2
        = (if capEx then (if rc = 0 then none else some PyErr.calledProcessError)
           else some PyErr.fileNotFoundError)) := by
  refine ⟨?_, ?_, ?_⟩
  · intro i sout serr exited h hany
    simp only [WirelessCapturer.update_state, capFold_first i h serr, hany,
      eq_self_iff_true, if_true]
    cases exited
    · simp [List.count_append, warns_count]
    · simp [List.count_append, warns_count]
  · intro i sout serr capEx rc exited h
    simp only [WirelessCapturer.update_state, capFold_detected capEx rc i h serr]
    cases exited
    · simp [List.count_append, warns_count, h]
    · simp [List.count_append, warns_count, h]
  · intro i l capEx rc exited h hw
    simp only [WirelessCapturer.update_state, WirelessCapturer.foldStderr, hw,
      eq_self_iff_true, if_true, h, WirelessCapturer.extractWpaHandshake]
    cases capEx
    · simp
    · by_cases hr : rc = 0
      · subst hr
        cases exited <;> simp
      · simp [hr]

/-- C8 witness: `claim8_handshake_extraction` at concrete handshake
lines. -/
theorem claim8_witness :
    (WirelessCapturer.update_state WirelessCapturer.start.1 []
        ["00:00:00  WPA handshake: AA:BB:CC:DD:EE:FF"] true 0 false).2.2 = none ∧
    ((WirelessCapturer.update_state WirelessCapturer.start.1 []
        ["00:00:00  WPA handshake: AA:BB:CC:DD:EE:FF"] true 0 false).2.1).count
        Act.runCleanTool = 1 ∧
    (WirelessCapturer.update_state WirelessCapturer.start.1 []
        ["01:00:00  WPA handshake: AA:BB:CC:DD:EE:FF"] false 7 false).2.2
      = some PyErr.fileNotFoundError :=
  have h := claim8_handshake_extraction.1 WirelessCapturer.start.1 []
    ["00:00:00  WPA handshake: AA:BB:CC:DD:EE:FF"] false rfl (by decide)
  have h3 := claim8_handshake_extraction.2.2 WirelessCapturer.start.1
    "01:00:00  WPA handshake: AA:BB:CC:DD:EE:FF" false 7 false rfl (by decide)
  ⟨h.2.1, h.1, h3⟩



/-! ## Helper lemmas about the orchestrator, and claims C5, C7 -/

lemma faLine_frame (ap : AccessPoint) (i : FakeAuthentication.Inst) (l : String) :
    (FakeAuthentication.classifyLine ap i l).process = i.process ∧
    (FakeAuthentication.classifyLine ap i l).stdout_r = i.stdout_r ∧
    (FakeAuthentication.classifyLine ap i l).stdout_w = i.stdout_w ∧
    (FakeAuthentication.classifyLine ap i l).stderr_r = i.stderr_r ∧
    (FakeAuthentication.classifyLine ap i l).stderr_w = i.stderr_w := by
  refine ⟨?_, ?_, ?_, ?_, ?_⟩ <;>
    (simp only [FakeAuthentication.classifyLine]; repeat' split) <;> rfl

lemma faLines_frame (ap : AccessPoint) :
    ∀ (ls : List String) (i : FakeAuthentication.Inst),
      (FakeAuthentication.classifyLines ap i ls).process = i.process ∧
      (FakeAuthentication.classifyLines ap i ls).stdout_r = i.stdout_r ∧
      (FakeAuthentication.classifyLines ap i ls).stdout_w = i.stdout_w ∧
      (FakeAuthentication.classifyLines ap i ls).stderr_r = i.stderr_r ∧
      (FakeAuthentication.classifyLines ap i ls).stderr_w = i.stderr_w := by
  intro ls
  induction ls with
  | nil => intro i; exact ⟨rfl, rfl, rfl, rfl, rfl⟩
  | cons l ls ih =>
    intro i
    simp only [FakeAuthentication.classifyLines]
    have h1 := faLine_frame ap i l
    have h2 := ih (FakeAuthentication.classifyLine ap i l)
    exact ⟨h2.1.trans h1.1, h2.2.1.trans h1.2.1, h2.2.2.1.trans h1.2.2.1,
      h2.2.2.2.1.trans h1.2.2.2.1, h2.2.2.2.2.trans h1.2.2.2.2⟩

lemma faUpdate_frame (ap : AccessPoint) (i : FakeAuthentication.Inst)
    (lines : List String) (stderr : String) (exited : Bool) :
    (FakeAuthentication.update_state ap i lines stderr exited).1.process = i.process ∧
    (FakeAuthentication.update_state ap i lines stderr exited).1.stdout_r = i.stdout_r ∧
    (FakeAuthentication.update_state ap i lines stderr exited).1.stdout_w = i.stdout_w ∧
    (FakeAuthentication.update_state ap i lines stderr exited).1.stderr_r = i.stderr_r ∧
    (FakeAuthentication.update_state ap i lines stderr exited).1.stderr_w = i.stderr_w := by
  have h := faLines_frame ap lines i
  simp only [FakeAuthentication.update_state]
  split
  · exact h
  · split
    · exact h
    · exact h

lemma deauthRound_shape (avail : Nat → Bool) :
    ∀ (sts : List String) (checks : Nat) (a : Act),
      a ∈ (WepAttacker.deauthRound avail sts checks).1 →
      (∃ st, a = Act.deauth st) ∨ a = Act.sleep 2 := by
  intro sts
  induction sts with
  | nil =>
    intro checks a ha
    simp [WepAttacker.deauthRound] at ha
  | cons st rest ih =>
    intro checks a ha
    simp only [WepAttacker.deauthRound] at ha
    split at ha
    · simp only [List.mem_cons, List.not_mem_nil, or_false] at ha
      rcases ha with h | h
      · exact Or.inl ⟨st, h⟩
      · exact Or.inr h
    · rcases hr : WepAttacker.deauthRound avail rest (checks + 1) with ⟨acts, c2, b⟩
      rw [hr] at ha
      simp only [List.mem_cons] at ha
      rcases ha with h | h | h
      · exact Or.inl ⟨st, h⟩
      · exact Or.inr h
      · refine ih (checks + 1) a ?_
        rw [hr]
        exact h

lemma acquireLoop_shape (avail : Nat → Bool) (stations : List String) :
    ∀ (fuel checks : Nat) (a : Act),
      a ∈ (WepAttacker.acquireLoop avail stations fuel checks).1 →
      (∃ st, a = Act.deauth st) ∨ a = Act.sleep 2 := by
  intro fuel
  induction fuel with
  | zero =>
    intro checks a ha
    simp [WepAttacker.acquireLoop] at ha
  | succ fuel ih =>
    intro checks a ha
    simp only [WepAttacker.acquireLoop] at ha
    split at ha
    · simp at ha
    · rcases hr : WepAttacker.deauthRound avail stations (checks + 1) with ⟨acts, c2, b⟩
      rw [hr] at ha
      rcases hl : WepAttacker.acquireLoop avail stations fuel c2 with ⟨acts2, c3⟩
      rw [hl] at ha
      simp only [List.mem_append] at ha
      rcases ha with h | h
      · refine deauthRound_shape avail stations (checks + 1) a ?_
        rw [hr]
        exact h
      · refine ih c2 a ?_
        rw [hl]
        exact h

lemma acquireLoop_no_spawn (avail : Nat → Bool) (stations : List String)
    (fuel checks : Nat) :
    ((WepAttacker.acquireLoop avail stations fuel checks).1).count
      (Act.spawn ProcKind.fakeauth) = 0 := by
  rw [List.count_eq_zero]
  intro hmem
  rcases acquireLoop_shape avail stations fuel checks _ hmem with ⟨st, h⟩ | h <;>
    simp at h

lemma acquireLoop_no_sleep5 (avail : Nat → Bool) (stations : List String)
    (fuel checks : Nat) :
    Act.sleep 5 ∉ (WepAttacker.acquireLoop avail stations fuel checks).1 := by
  intro hmem
  rcases acquireLoop_shape avail stations fuel checks _ hmem with ⟨st, h⟩ | h <;>
    simp at h

/-- C5: in each pass of the orchestrator's fake-authentication loop body,
the `needs_prga_xor` flag is checked before the `deauthenticated` flag and
at most one restart (one new `aireplay-ng --fakeauth` spawn) is performed:
when keystream acquisition runs it restarts exactly once and the 5-second
deauthentication backoff never happens in the same pass (restarting resets
the flags, so the later `deauthenticated` check sees `False`); when only
`deauthenticated` is set, the reaction is exactly clean, a 5-second
backoff, then the restart. -/
theorem claim5_single_restart :
    ∀ avail stations acqFuel ap (fa : FakeAuthentication.Inst)
      (o : WepAttacker.Obs) checks,
      fa.stdout_r = true → fa.stdout_w = true → fa.stderr_r = true →
      fa.stderr_w = true →
      ((WepAttacker.loopPass avail stations acqFuel ap fa o checks).2.2.1.count
          (Act.spawn ProcKind.fakeauth) ≤ 1) ∧
      ((FakeAuthentication.update_state ap fa o.lines o.stderr o.exited).2 = none →
       (FakeAuthentication.update_state ap fa o.lines o.stderr o.exited).1.needs_prga_xor
          = some true →
       Act.sleep 5 ∉ (WepAttacker.loopPass avail stations acqFuel ap fa o checks).2.2.1 ∧
       (WepAttacker.loopPass avail stations acqFuel ap fa o checks).2.2.1.count
          (Act.spawn ProcKind.fakeauth) = 1) ∧
      ((FakeAuthentication.update_state ap fa o.lines o.stderr o.exited).2 = none →
       (FakeAuthentication.update_state ap fa o.lines o.stderr o.exited).1.needs_prga_xor
          = some false →
       (FakeAuthentication.update_state ap fa o.lines o.stderr o.exited).1.deauthenticated
          = some true →
       (WepAttacker.loopPass avail stations acqFuel ap fa o checks).2.2.1
         = [Act.cleanProc ProcKind.fakeauth, Act.sleep 5,
            Act.spawn ProcKind.fakeauth]) := by
  intro avail stations acqFuel ap fa o checks h1 h2 h3 h4
  have hframe := faUpdate_frame ap fa o.lines o.stderr o.exited
  rcases hu : FakeAuthentication.update_state ap fa o.lines o.stderr o.exited
    with ⟨fa1, e⟩
  rw [hu] at hframe
  simp only at hframe
  have hc : FakeAuthentication.clean fa1 = (FakeAuthentication.init, none) :=
    faClean_open fa1 (hframe.2.1.trans h1) (hframe.2.2.1.trans h2)
      (hframe.2.2.2.1.trans h3) (hframe.2.2.2.2.trans h4)
  simp only [WepAttacker.loopPass, hu]
  cases e with
  | some err =>
    refine ⟨by simp, ?_, ?_⟩
    · intro hn
      exact absurd hn (by simp)
    · intro hn
      exact absurd hn (by simp)
  | none =>
    cases hneq : fa1.needs_prga_xor with
    | none =>
      simp only [hneq]
      refine ⟨by simp, ?_, ?_⟩
      · intro _ ht
        simp [hneq] at ht
      · intro _ ht
        simp [hneq] at ht
    | some needs =>
      simp only [hneq]
      cases needs with
      | false =>
        simp only [Bool.false_eq_true, if_false]
        cases hd : fa1.deauthenticated with
        | none =>
          simp only [hd]
          refine ⟨by simp, ?_, ?_⟩
          · intro _ ht
            simp [hneq] at ht
          · intro _ _ ht
            simp [hd] at ht
        | some d =>
          simp only [hd]
          cases d with
          | false =>
            simp only [Bool.false_eq_true, if_false]
            refine ⟨by simp, ?_, ?_⟩
            · intro _ ht
              simp [hneq] at ht
            · intro _ _ ht
              simp [hd] at ht
          | true =>
            simp only [eq_self_iff_true, if_true, hc]
            refine ⟨by simp [FakeAuthentication.start], ?_, ?_⟩
            · intro _ ht
              simp [hneq] at ht
            · intro _ _ _
              simp [FakeAuthentication.start]
      | true =>
        simp only [eq_self_iff_true, if_true, hc]
        rcases ha : WepAttacker.acquireLoop avail stations acqFuel checks
          with ⟨actsAcq, c2⟩
        have hns := acquireLoop_no_spawn avail stations acqFuel checks
        have hn5 := acquireLoop_no_sleep5 avail stations acqFuel checks
        rw [ha] at hns hn5
        simp only at hns hn5
        simp only [FakeAuthentication.start]
        refine ⟨?_, ?_, ?_⟩
        · simp [List.count_append, hns]
        · intro _ _
          constructor
          · intro hmem
            rcases List.mem_append.1 hmem with h | h
            · rcases List.mem_append.1 h with h2 | h2
              · exact hn5 h2
              · simp at h2
            · simp at h
          · simp [List.count_append, List.count_cons, hns]
        · intro _ ht
          simp [hneq] at ht

/-- C5 witness: a pass over a freshly started instance that received a
deauthentication packet performs exactly the backoff restart. -/
theorem claim5_witness :
    (WepAttacker.loopPass (fun _ => false) [] 0 ⟨none, none, none⟩
        (FakeAuthentication.start FakeAuthentication.init).1
        ⟨["Got a deauthentication packet!"], "", false⟩ 0).2.2.1
      = [Act.cleanProc ProcKind.fakeauth, Act.sleep 5,
         Act.spawn ProcKind.fakeauth] :=
  (claim5_single_restart (fun _ => false) [] 0 ⟨none, none, none⟩
      (FakeAuthentication.start FakeAuthentication.init).1
      ⟨["Got a deauthentication packet!"], "", false⟩ 0 rfl rfl rfl rfl).2.2
    (by decide) (by decide) (by decide)

/-- C7: when the target access point is already marked cracked and `force`
is false, the orchestrator's `start` returns immediately: no process is
spawned, no action of any kind is emitted, and neither the access point
nor any attack-process state changes. -/
theorem claim7_cracked_noop :
    ∀ (ap : AccessPoint) avail stations acqFuel faFuel crackFuel
      faObs crFaObs crArpObs crWcObs,
      ap.is_cracked = true →
      WepAttacker.start false ap avail stations acqFuel faFuel crackFuel
        faObs crFaObs crArpObs crWcObs = (ap, [], none) := by
  intro ap avail stations a f c o1 o2 o3 o4 h
  simp [WepAttacker.start, h]

/-- C7 witness: `claim7_cracked_noop` on a concrete cracked access point. -/
theorem claim7_witness :
    WepAttacker.start false ⟨none, none, some "psk.hex"⟩ (fun _ => false) [] 0 0 0
      (fun _ => ⟨[], "", false⟩) (fun _ => ⟨[], "", false⟩)
      (fun _ => ⟨[], "", false⟩) (fun _ => ⟨[], "", false⟩)
      = (⟨none, none, some "psk.hex"⟩, [], none) :=
  claim7_cracked_noop ⟨none, none, some "psk.hex"⟩ (fun _ => false) [] 0 0 0
    (fun _ => ⟨[], "", false⟩) (fun _ => ⟨[], "", false⟩)
    (fun _ => ⟨[], "", false⟩) (fun _ => ⟨[], "", false⟩) rfl

end Wifimitm
